import Mathlib

/-!
Shallow embedding of `xknx/io/udp_client.py` (class `UDPClient`), covering the
constructor address check, the callback registry and dispatch loop, the
receive hook, the multicast socket factory, and the send/stop/introspection
operations over an optional transport reference.
-/

/-- Python values, as far as the constructor type check needs them:
strings, integers, tuples, lists, and `None`. -/
inductive PyVal where
  | str (s : String)
  | int (n : Int)
  | tuple (xs : List PyVal)
  | list (xs : List PyVal)
  | none

/-- `isinstance(v, tuple)` on a Python value. -/
def PyVal.isTuple : PyVal → Bool
  | .tuple _ => true
  | _ => false

/-- Well-formed `(host, port)` pair in the sense of the spec data model:
a 2-tuple whose first element is a string and whose second is an integer.
This predicate follows the spec wording; the source constructor does not
perform this check, only `isinstance(..., tuple)`. -/
def isHostPortPair : PyVal → Bool
  | .tuple [.str _, .int _] => true
  | _ => false

/-- Python-level errors the embedded operations can raise. -/
inductive PyError where
  | typeError        -- `raise TypeError()` in `__init__`
  | valueError       -- `list.remove(x)` with `x` not in the list
  | attributeError   -- attribute access on `None` (absent transport)
deriving DecidableEq, Repr

/-- The asyncio datagram transport, as far as the client reads it:
whether `close()` has been called, and the `sockname` / `peername`
extra-info values the OS endpoint reports. -/
structure Transport where
  closed : Bool
  sockname : PyVal
  peername : PyVal

/-- A KNXIP frame as the client sees it: the service-type discriminant read
by the dispatch loop (`knxipframe.header.service_type_ident`) and the
encoded bytes `bytes(knxipframe.to_knx())` written by `send`. -/
structure KNXIPFrame where
  service_type_ident : Nat
  to_knx : List Nat
deriving DecidableEq, Repr

/-- `UDPClient.Callback`: a registration record holding the handler
(`self.callback`, modelled by its identity as a number), the service-type
filter (`self.service_types`), and the Python object identity `id` of the
record itself, which is what `list.remove` compares. `register_callback`
always constructs a fresh record, so identities are fresh. -/
structure UDPClient.Callback where
  id : Nat
  callback : Nat
  service_types : List Nat
deriving DecidableEq, Repr

/-- `Callback.has_service`: the callback listens for `service_type` when its
filter is empty or contains the type. -/
def UDPClient.Callback.has_service (cb : UDPClient.Callback) (service_type : Nat) : Bool :=
  cb.service_types.length == 0 || cb.service_types.contains service_type

/-- The `UDPClient` instance state: the two addresses and the multicast flag
stored by `__init__`, the optional transport reference (`None` until
`connect`, never reset by `stop`), the callback list, and the next fresh
object identity used when a `Callback` record is constructed. -/
structure UDPClient where
  local_addr : PyVal
  remote_addr : PyVal
  multicast : Bool
  transport : Option Transport
  callbacks : List UDPClient.Callback
  nextId : Nat

/-- `UDPClient.__init__`: raises `TypeError` when either address fails
`isinstance(..., tuple)`; otherwise stores both addresses unchanged with
`transport = None` and an empty callback list. No arity or element-type
check is performed. -/
def UDPClient.init (local_addr remote_addr : PyVal) (multicast : Bool) :
    Except PyError UDPClient :=
  if !local_addr.isTuple then Except.error PyError.typeError
  else if !remote_addr.isTuple then Except.error PyError.typeError
  else Except.ok
    { local_addr := local_addr, remote_addr := remote_addr, multicast := multicast,
      transport := Option.none, callbacks := [], nextId := 0 }

/-- The `for callback in self.callbacks` loop of `handle_knxipframe`,
threading the `handled` flag: returns the list of callback records invoked,
in iteration order, together with the final `handled` flag. -/
def dispatchLoop : List UDPClient.Callback → Nat → Bool → List UDPClient.Callback × Bool
  | [], _, handled => ([], handled)
  | callb :: rest, st, handled =>
    if callb.has_service st then
      ((callb :: (dispatchLoop rest st true).1), (dispatchLoop rest st true).2)
    else
      dispatchLoop rest st handled

/-- `UDPClient.handle_knxipframe`: runs the dispatch loop over the current
callbacks with `handled = False`; when the final flag is false the source
logs the "UNHANDLED" diagnostic (no error is raised either way). -/
def UDPClient.handle_knxipframe (c : UDPClient) (f : KNXIPFrame) :
    List UDPClient.Callback × Bool :=
  dispatchLoop c.callbacks f.service_type_ident false

/-- Outcome of the receive hook `data_received_callback`: empty bytes are
dropped, a `CouldNotParseKNXIP` is logged and swallowed, and a decoded frame
is dispatched (with the invoked callbacks and whether the unhandled
diagnostic was logged). -/
inductive RecvResult where
  | dropped_empty : RecvResult
  | parse_error_logged : RecvResult
  | dispatched : List UDPClient.Callback → Bool → RecvResult
deriving DecidableEq, Repr

/-- Callbacks invoked by a receive outcome (none unless dispatch ran). -/
def RecvResult.invoked : RecvResult → List UDPClient.Callback
  | .dispatched inv _ => inv
  | _ => []

/-- `UDPClient.data_received_callback`: on non-empty bytes, decode via the
external codec (`KNXIPFrame.from_knx`, opaque here, passed as `decode`);
`CouldNotParseKNXIP` is caught, logged and dropped; a decoded frame goes to
`handle_knxipframe`. Empty bytes do nothing. -/
def UDPClient.data_received_callback (c : UDPClient)
    (decode : List Nat → Option KNXIPFrame) (raw : List Nat) : RecvResult :=
  if raw.isEmpty then RecvResult.dropped_empty
  else
    match decode raw with
    | Option.none => RecvResult.parse_error_logged
    | Option.some f =>
        RecvResult.dispatched (c.handle_knxipframe f).1 (!(c.handle_knxipframe f).2)

/-- `UDPClient.register_callback`: a `None` filter becomes the empty list,
a fresh `Callback` record is constructed, appended, and returned as the
handle. -/
def UDPClient.register_callback (c : UDPClient) (callbackFn : Nat)
    (service_types : Option (List Nat)) : UDPClient × UDPClient.Callback :=
  let sts := match service_types with
    | Option.none => []
    | Option.some l => l
  let callb : UDPClient.Callback := { id := c.nextId, callback := callbackFn, service_types := sts }
  ({ c with callbacks := c.callbacks ++ [callb], nextId := c.nextId + 1 }, callb)

/-- Python `list.remove` keyed on object identity: removes the first record
whose identity equals `i`, or reports absence. -/
def removeFirst : List UDPClient.Callback → Nat → Option (List UDPClient.Callback)
  | [], _ => Option.none
  | cb :: rest, i =>
    if cb.id = i then Option.some rest
    else
      match removeFirst rest i with
      | Option.none => Option.none
      | Option.some r => Option.some (cb :: r)

/-- `UDPClient.unregister_callback`: `self.callbacks.remove(callb)` — removes
the record with the identity of the given handle, or raises `ValueError`
leaving the list unchanged. -/
def UDPClient.unregister_callback (c : UDPClient) (callb : UDPClient.Callback) :
    UDPClient × Option PyError :=
  match removeFirst c.callbacks callb.id with
  | Option.none => (c, Option.some PyError.valueError)
  | Option.some cbs => ({ c with callbacks := cbs }, Option.none)

/-- Socket operations performed by `create_multicast_sock`, in the order the
source issues them. -/
inductive SockOp where
  | socket_af_inet_dgram
  | setsockopt_reuseaddr (v : Nat)
  | setblocking_false
  | setsockopt_multicast_if (ip : String)
  | setsockopt_add_membership (group : String) (iface : String)
  | setsockopt_multicast_ttl (v : Nat)
  | setsockopt_reuseport (v : Nat)
  | sock_bind (host : String) (port : Nat)
  | setsockopt_multicast_loop (v : Nat)
deriving DecidableEq, Repr

/-- Resulting configuration of a socket after a sequence of operations. -/
structure SockState where
  reuseaddr : Option Nat
  nonblocking : Bool
  mcast_if : Option String
  memberships : List (String × String)
  ttl : Option Nat
  reuseport : Option Nat
  bound : Option (String × Nat)
  mcast_loop : Option Nat
deriving DecidableEq, Repr

/-- Freshly created socket: nothing configured yet. -/
def SockState.initial : SockState :=
  { reuseaddr := Option.none, nonblocking := false, mcast_if := Option.none,
    memberships := [], ttl := Option.none, reuseport := Option.none,
    bound := Option.none, mcast_loop := Option.none }

/-- Effect of one socket operation on the socket configuration. -/
def applyOp (s : SockState) : SockOp → SockState
  | .socket_af_inet_dgram => s
  | .setsockopt_reuseaddr v => { s with reuseaddr := Option.some v }
  | .setblocking_false => { s with nonblocking := true }
  | .setsockopt_multicast_if ip => { s with mcast_if := Option.some ip }
  | .setsockopt_add_membership g i => { s with memberships := s.memberships ++ [(g, i)] }
  | .setsockopt_multicast_ttl v => { s with ttl := Option.some v }
  | .setsockopt_reuseport v => { s with reuseport := Option.some v }
  | .sock_bind h p => { s with bound := Option.some (h, p) }
  | .setsockopt_multicast_loop v => { s with mcast_loop := Option.some v }

/-- Run a socket-operation trace from a fresh socket. -/
def runSock (ops : List SockOp) : SockState :=
  ops.foldl applyOp SockState.initial

/-- `UDPClient.create_multicast_sock(own_ip, remote_addr)`: the exact
sequence of socket operations the source performs, with the platform branch
(`sys.platform`) as a parameter. -/
def UDPClient.create_multicast_sock (own_ip : String) (remote_addr : String × Nat)
    (platform : String) : List SockOp :=
  [SockOp.socket_af_inet_dgram,
   SockOp.setsockopt_reuseaddr 1,
   SockOp.setblocking_false,
   SockOp.setsockopt_multicast_if own_ip,
   SockOp.setsockopt_add_membership remote_addr.1 own_ip,
   SockOp.setsockopt_multicast_ttl 2]
  ++ (if platform = "win32" then
        [SockOp.sock_bind "" remote_addr.2]
      else if platform = "darwin" then
        [SockOp.setsockopt_reuseport 1, SockOp.sock_bind "" remote_addr.2]
      else
        [SockOp.sock_bind remote_addr.1 remote_addr.2])
  ++ [SockOp.setsockopt_multicast_loop 0]

/-- Trace prescribed by spec section 4.1, steps 1 to 6, in its stated order:
address reuse and non-blocking mode, outbound interface, group membership,
TTL 2, the platform-branched bind (Windows wildcard plus group port, macOS
port reuse then wildcard plus group port, otherwise group address plus
port), and multicast loopback disabled. Stated from the spec wording, to be
compared with the source trace. -/
def specMulticastTrace (own_ip group : String) (port : Nat) (platform : String) : List SockOp :=
  [SockOp.socket_af_inet_dgram,
   SockOp.setsockopt_reuseaddr 1,
   SockOp.setblocking_false,
   SockOp.setsockopt_multicast_if own_ip,
   SockOp.setsockopt_add_membership group own_ip,
   SockOp.setsockopt_multicast_ttl 2]
  ++ (if platform = "win32" then
        [SockOp.sock_bind "" port]
      else if platform = "darwin" then
        [SockOp.setsockopt_reuseport 1, SockOp.sock_bind "" port]
      else
        [SockOp.sock_bind group port])
  ++ [SockOp.setsockopt_multicast_loop 0]

/-- Socket configuration produced by the multicast factory. -/
def mcsockState (own_ip group : String) (port : Nat) (platform : String) : SockState :=
  runSock (UDPClient.create_multicast_sock own_ip (group, port) platform)

/-- `UDPClient.connect`: builds the datagram endpoint on the event loop
(through `create_multicast_sock` when multicast) and assigns the resulting
transport to `self.transport`. The transport the loop produces is a
parameter. -/
def UDPClient.connect (c : UDPClient) (transport : Transport) : UDPClient :=
  { c with transport := Option.some transport }

/-- Outcome of `UDPClient.send`: the not-connected guard exception, or a
`transport.sendto` with or without an explicit destination. -/
inductive SendOutcome where
  | notConnected                             -- raise XKNXException("Transport not connected")
  | sentTo (data : List Nat) (addr : PyVal)  -- transport.sendto(bytes, self.remote_addr)
  | sent (data : List Nat)                   -- transport.sendto(bytes)

/-- `UDPClient.send`: raises the not-connected exception when
`self.transport is None`; otherwise writes the encoded bytes, addressed to
`remote_addr` when multicast and with no destination otherwise. -/
def UDPClient.send (c : UDPClient) (f : KNXIPFrame) : SendOutcome :=
  match c.transport with
  | Option.none => SendOutcome.notConnected
  | Option.some _ =>
    if c.multicast then SendOutcome.sentTo f.to_knx c.remote_addr
    else SendOutcome.sent f.to_knx

/-- `UDPClient.getsockname`: reads extra info off `self.transport`, an
attribute error on `None` when never connected. -/
def UDPClient.getsockname (c : UDPClient) : Except PyError PyVal :=
  match c.transport with
  | Option.none => Except.error PyError.attributeError
  | Option.some t => Except.ok t.sockname

/-- `UDPClient.getremote`: reads extra info off `self.transport`, an
attribute error on `None` when never connected. -/
def UDPClient.getremote (c : UDPClient) : Except PyError PyVal :=
  match c.transport with
  | Option.none => Except.error PyError.attributeError
  | Option.some t => Except.ok t.peername

/-- `UDPClient.stop`: `self.transport.close()` — an attribute error on
`None` when never connected; otherwise the transport is closed but the
reference in `self.transport` is retained. -/
def UDPClient.stop (c : UDPClient) : Except PyError UDPClient :=
  match c.transport with
  | Option.none => Except.error PyError.attributeError
  | Option.some t => Except.ok { c with transport := Option.some { t with closed := true } }

/-- Sample client as constructed in the spec scenario: local `("0.0.0.0", 0)`,
remote `("224.0.23.12", 3671)`, multicast, not yet connected. -/
def sampleClient : UDPClient :=
  { local_addr := PyVal.tuple [PyVal.str "0.0.0.0", PyVal.int 0],
    remote_addr := PyVal.tuple [PyVal.str "224.0.23.12", PyVal.int 3671],
    multicast := true, transport := Option.none, callbacks := [], nextId := 0 }

/-- Sample transport as produced by the event loop at connect time. -/
def sampleTransport : Transport :=
  { closed := false,
    sockname := PyVal.tuple [PyVal.str "0.0.0.0", PyVal.int 55555],
    peername := PyVal.none }

/-- Sample frame of service type 0x0201. -/
def sampleFrame : KNXIPFrame := { service_type_ident := 0x0201, to_knx := [6, 16, 2, 1, 0, 8] }

/-- Sample frame of service type 0x0203. -/
def sampleFrame2 : KNXIPFrame := { service_type_ident := 0x0203, to_knx := [6, 16, 2, 3, 0, 8] }

/-- Sample registration with an empty filter (matches every frame). -/
def cbAll : UDPClient.Callback := { id := 0, callback := 10, service_types := [] }

/-- Sample registration filtering on service type 0x0201. -/
def cbSearch : UDPClient.Callback := { id := 1, callback := 11, service_types := [0x0201] }

/-- Sample client holding both sample registrations, in registration order. -/
def clientWithCbs : UDPClient := { sampleClient with callbacks := [cbAll, cbSearch], nextId := 2 }

/-- Sample client holding only the filtered registration. -/
def clientOnlySearch : UDPClient := { sampleClient with callbacks := [cbSearch], nextId := 2 }

/-- Sample codec oracle that decodes every input to the sample frame. -/
def sampleDecode : List Nat → Option KNXIPFrame := fun _ => Option.some sampleFrame

/-- The invoked part of the dispatch loop is the filter of the callback list
by `has_service`, for any initial value of the `handled` flag. -/
theorem dispatchLoop_fst (cbs : List UDPClient.Callback) (st : Nat) (h : Bool) :
    (dispatchLoop cbs st h).1 = cbs.filter (fun cb => cb.has_service st) := by
  induction cbs generalizing h with
  | nil => rfl
  | cons cb rest ih =>
    cases hc : cb.has_service st
    · simp [dispatchLoop, hc, List.filter_cons, ih]
    · simp [dispatchLoop, hc, List.filter_cons, ih]

/-- The final `handled` flag of the dispatch loop is the disjunction of the
initial flag with matching any callback. -/
theorem dispatchLoop_snd (cbs : List UDPClient.Callback) (st : Nat) (h : Bool) :
    (dispatchLoop cbs st h).2 = (h || cbs.any (fun cb => cb.has_service st)) := by
  induction cbs generalizing h with
  | nil => simp [dispatchLoop]
  | cons cb rest ih =>
    cases hc : cb.has_service st
    · simp [dispatchLoop, hc, ih]
    · simp [dispatchLoop, hc, ih]

/-- `list.remove` on a list holding no record of the given identity reports
absence. -/
theorem removeFirst_of_absent (cbs : List UDPClient.Callback) (i : Nat)
    (h : ∀ cb ∈ cbs, cb.id ≠ i) : removeFirst cbs i = Option.none := by
  induction cbs with
  | nil => rfl
  | cons cb rest ih =>
    have h1 : cb.id ≠ i := h cb (List.mem_cons_self cb rest)
    have h2 : ∀ x ∈ rest, x.id ≠ i := fun x hx => h x (List.mem_cons_of_mem cb hx)
    simp [removeFirst, h1, ih h2]

/-- `list.remove` succeeds when the record is present. -/
theorem removeFirst_isSome_of_mem (cbs : List UDPClient.Callback) (cb : UDPClient.Callback)
    (h : cb ∈ cbs) : (removeFirst cbs cb.id).isSome = true := by
  induction cbs with
  | nil => cases h
  | cons x rest ih =>
    by_cases hx : x.id = cb.id
    · simp [removeFirst, hx]
    · rcases List.mem_cons.mp h with rfl | hm
      · exact absurd rfl hx
      · have hs := ih hm
        cases hr : removeFirst rest cb.id with
        | none => rw [hr] at hs; cases hs
        | some r => simp [removeFirst, hx, hr]

/-- With pairwise-distinct identities, a successful `list.remove` leaves no
record of the removed identity and keeps every other record. -/
theorem removeFirst_spec (cbs : List UDPClient.Callback) (i : Nat)
    (hnd : (cbs.map (fun cb => cb.id)).Nodup) :
    ∀ r, removeFirst cbs i = Option.some r →
      (∀ cb ∈ r, cb.id ≠ i) ∧ (∀ cb ∈ cbs, cb.id ≠ i → cb ∈ r) := by
  induction cbs with
  | nil => intro r hr; cases hr
  | cons x rest ih =>
    intro r hr
    have hx_not : x.id ∉ rest.map (fun cb => cb.id) := (List.nodup_cons.mp hnd).1
    have hnd2 : (rest.map (fun cb => cb.id)).Nodup := (List.nodup_cons.mp hnd).2
    by_cases hx : x.id = i
    · simp [removeFirst, hx] at hr
      subst hr
      constructor
      · intro cb hcb heq
        apply hx_not
        rw [hx, ← heq]
        exact List.mem_map_of_mem (fun cb => cb.id) hcb
      · intro cb hcb hne
        rcases List.mem_cons.mp hcb with rfl | hm
        · exact absurd hx hne
        · exact hm
    · cases hr2 : removeFirst rest i with
      | none => simp [removeFirst, hx, hr2] at hr
      | some r2 =>
        simp [removeFirst, hx, hr2] at hr
        subst hr
        obtain ⟨h1, h2⟩ := ih hnd2 r2 hr2
        constructor
        · intro cb hcb
          rcases List.mem_cons.mp hcb with rfl | hm
          · exact hx
          · exact h1 cb hm
        · intro cb hcb hne
          rcases List.mem_cons.mp hcb with rfl | hm
          · exact List.mem_cons_self _ _
          · exact List.mem_cons_of_mem _ (h2 cb hm hne)

/-- C2: for every decoded frame and every registration list, dispatch invokes
exactly the registered callbacks whose type filter is empty or contains the
service type of the frame, in list order; the list is kept in registration
order because `register_callback` appends the fresh handle at the end. -/
theorem dispatch_matches_filter_in_order (c : UDPClient) (f : KNXIPFrame) :
    (c.handle_knxipframe f).1
        = c.callbacks.filter (fun cb => cb.has_service f.service_type_ident)
      ∧ (∀ cb : UDPClient.Callback,
          cb.has_service f.service_type_ident = true
            ↔ (cb.service_types = [] ∨ f.service_type_ident ∈ cb.service_types))
      ∧ (∀ (fn : Nat) (sts : Option (List Nat)),
          ((c.register_callback fn sts).1).callbacks
            = c.callbacks ++ [(c.register_callback fn sts).2]) := by
  refine ⟨dispatchLoop_fst c.callbacks f.service_type_ident false, ?_, ?_⟩
  · intro cb
    simp [UDPClient.Callback.has_service, List.length_eq_zero]
  · intro fn sts
    rfl

/-- C2 witness: on the sample client holding the match-all and the filtered
registration, dispatching the 0x0201 frame invokes exactly the matching
registrations in order. -/
theorem dispatch_matches_filter_in_order_witness :
    (clientWithCbs.handle_knxipframe sampleFrame).1
      = clientWithCbs.callbacks.filter (fun cb => cb.has_service sampleFrame.service_type_ident) :=
  (dispatch_matches_filter_in_order clientWithCbs sampleFrame).1

/-- C6: the unhandled diagnostic is recorded (the final `handled` flag is
false) if and only if no current registration matches the service type of
the frame; dispatch is a total function, so no error is raised either way. -/
theorem unhandled_logged_iff_no_match (c : UDPClient) (f : KNXIPFrame) :
    (c.handle_knxipframe f).2 = false
      ↔ ∀ cb ∈ c.callbacks, cb.has_service f.service_type_ident = false := by
  rw [UDPClient.handle_knxipframe, dispatchLoop_snd]
  simp

/-- C6 witness: a client holding only the 0x0201-filtered registration logs
the unhandled diagnostic for a 0x0203 frame. -/
theorem unhandled_logged_iff_no_match_witness :
    (clientOnlySearch.handle_knxipframe sampleFrame2).2 = false :=
  (unhandled_logged_iff_no_match clientOnlySearch sampleFrame2).mpr (by decide)

/-- C3: the receive hook drops empty bytes without consulting the codec,
logs and drops a parse failure without invoking any callback or raising,
and hands a decoded frame to dispatch. -/
theorem receive_path_characterization (c : UDPClient)
    (decode decode2 : List Nat → Option KNXIPFrame) (raw : List Nat) :
    (raw = [] → c.data_received_callback decode raw = RecvResult.dropped_empty
        ∧ c.data_received_callback decode raw = c.data_received_callback decode2 raw)
      ∧ (raw ≠ [] → decode raw = Option.none →
          c.data_received_callback decode raw = RecvResult.parse_error_logged
            ∧ (c.data_received_callback decode raw).invoked = [])
      ∧ (∀ f : KNXIPFrame, raw ≠ [] → decode raw = Option.some f →
          c.data_received_callback decode raw
            = RecvResult.dispatched (c.handle_knxipframe f).1 (!(c.handle_knxipframe f).2)) := by
  refine ⟨?_, ?_, ?_⟩
  · intro h
    subst h
    exact ⟨rfl, rfl⟩
  · intro h hd
    cases raw with
    | nil => exact absurd rfl h
    | cons a l => simp [UDPClient.data_received_callback, hd, RecvResult.invoked]
  · intro f h hd
    cases raw with
    | nil => exact absurd rfl h
    | cons a l => simp [UDPClient.data_received_callback, hd]

/-- C3 witness: on non-empty bytes that decode to the sample frame, the
receive hook dispatches it. -/
theorem receive_path_characterization_witness :
    clientWithCbs.data_received_callback sampleDecode [1, 2]
      = RecvResult.dispatched (clientWithCbs.handle_knxipframe sampleFrame).1
          (!(clientWithCbs.handle_knxipframe sampleFrame).2) :=
  (receive_path_characterization clientWithCbs sampleDecode sampleDecode [1, 2]).2.2
    sampleFrame (by decide) rfl

/-- C1 counterexample: on the sample client, after connect and a successful
stop the transport reference is retained, so send does not fail with the
not-connected error — it writes to the closed transport instead. -/
theorem send_after_stop_not_guarded :
    UDPClient.stop (UDPClient.connect sampleClient sampleTransport)
        = Except.ok (UDPClient.connect sampleClient { sampleTransport with closed := true })
      ∧ (UDPClient.connect sampleClient { sampleTransport with closed := true }).send sampleFrame
          = SendOutcome.sentTo sampleFrame.to_knx sampleClient.remote_addr
      ∧ (UDPClient.connect sampleClient { sampleTransport with closed := true }).send sampleFrame
          ≠ SendOutcome.notConnected :=
  ⟨rfl, rfl, fun h => SendOutcome.noConfusion h⟩

/-- C1 (amended): send fails with the transport-not-connected error exactly
when the transport reference is `None`, i.e. before connect has completed;
stop closes but retains the transport reference, so after a successful stop
a send never fails with that error. The registry and receive operations do
not read the transport, so they remain usable in either case. -/
theorem send_guard_iff_transport_none (c : UDPClient) (f : KNXIPFrame) :
    (c.send f = SendOutcome.notConnected ↔ c.transport = Option.none)
      ∧ (∀ c2 : UDPClient, c.stop = Except.ok c2 →
          c2.send f ≠ SendOutcome.notConnected) := by
  constructor
  · cases ht : c.transport with
    | none => simp [UDPClient.send, ht]
    | some t =>
      by_cases hm : c.multicast <;> simp [UDPClient.send, ht, hm]
  · intro c2 hs
    cases ht : c.transport with
    | none => simp [UDPClient.stop, ht] at hs
    | some t =>
      simp [UDPClient.stop, ht] at hs
      subst hs
      by_cases hm : c.multicast <;> simp [UDPClient.send, hm]

/-- C1 amended witness: on the never-connected sample client, send fails
with the not-connected error. -/
theorem send_guard_iff_transport_none_witness :
    sampleClient.send sampleFrame = SendOutcome.notConnected :=
  (send_guard_iff_transport_none sampleClient sampleFrame).1.mpr rfl

/-- C4 counterexample: a 3-tuple of integers is not a well-formed
`(host, port)` pair, yet construction succeeds, because the constructor only
checks `isinstance(..., tuple)`. -/
theorem init_accepts_malformed_tuple :
    isHostPortPair (PyVal.tuple [PyVal.int 1, PyVal.int 2, PyVal.int 3]) = false
      ∧ UDPClient.init (PyVal.tuple [PyVal.int 1, PyVal.int 2, PyVal.int 3])
          (PyVal.tuple [PyVal.str "224.0.23.12", PyVal.int 3671]) false
        = Except.ok
            { local_addr := PyVal.tuple [PyVal.int 1, PyVal.int 2, PyVal.int 3],
              remote_addr := PyVal.tuple [PyVal.str "224.0.23.12", PyVal.int 3671],
              multicast := false, transport := Option.none, callbacks := [], nextId := 0 } :=
  ⟨rfl, rfl⟩

/-- C4 (amended): construction succeeds exactly when both addresses are
tuple instances (of any arity and element types), storing them unchanged;
when either is not a tuple instance it fails with a `TypeError` — the
constructor checks only tuple-ness, never arity or element types. -/
theorem init_checks_tuple_instance_only (a b : PyVal) (m : Bool) :
    (a.isTuple = true → b.isTuple = true →
        UDPClient.init a b m = Except.ok
          { local_addr := a, remote_addr := b, multicast := m,
            transport := Option.none, callbacks := [], nextId := 0 })
      ∧ (¬(a.isTuple = true ∧ b.isTuple = true) →
          UDPClient.init a b m = Except.error PyError.typeError) := by
  constructor
  · intro ha hb
    simp [UDPClient.init, ha, hb]
  · intro h
    by_cases ha : a.isTuple = true <;> by_cases hb : b.isTuple = true <;>
      simp_all [UDPClient.init]

/-- C4 amended witness: a non-tuple local address makes construction fail
with a `TypeError`. -/
theorem init_checks_tuple_instance_only_witness :
    UDPClient.init (PyVal.str "0.0.0.0") (PyVal.tuple []) true
      = Except.error PyError.typeError :=
  (init_checks_tuple_instance_only (PyVal.str "0.0.0.0") (PyVal.tuple []) true).2 (by decide)

/-- C5: the multicast factory performs exactly the spec-ordered operation
sequence, and the resulting socket has address reuse on, non-blocking mode,
the outbound interface pinned, the group joined on that interface, TTL 2,
the platform-branched bind target (wildcard plus group port on Windows and
macOS, group address plus port elsewhere), port reuse exactly on macOS, and
multicast loopback disabled. -/
theorem multicast_sock_configuration (own_ip group : String) (port : Nat) (platform : String) :
    (mcsockState own_ip group port platform).reuseaddr = Option.some 1
      ∧ (mcsockState own_ip group port platform).nonblocking = true
      ∧ (mcsockState own_ip group port platform).mcast_if = Option.some own_ip
      ∧ (mcsockState own_ip group port platform).memberships = [(group, own_ip)]
      ∧ (mcsockState own_ip group port platform).ttl = Option.some 2
      ∧ (mcsockState own_ip group port platform).bound
          = Option.some (if platform = "win32" ∨ platform = "darwin"
              then ("", port) else (group, port))
      ∧ ((mcsockState own_ip group port platform).reuseport = Option.some 1
          ↔ platform = "darwin")
      ∧ (mcsockState own_ip group port platform).mcast_loop = Option.some 0
      ∧ UDPClient.create_multicast_sock own_ip (group, port) platform
          = specMulticastTrace own_ip group port platform := by
  by_cases h1 : platform = "win32"
  · subst h1
    simp [mcsockState, UDPClient.create_multicast_sock, specMulticastTrace,
      runSock, applyOp, SockState.initial]
  · by_cases h2 : platform = "darwin"
    · subst h2
      simp [mcsockState, UDPClient.create_multicast_sock, specMulticastTrace,
        runSock, applyOp, SockState.initial, h1]
    · simp [mcsockState, UDPClient.create_multicast_sock, specMulticastTrace,
        runSock, applyOp, SockState.initial, h1, h2]

/-- C5 witness: on a Linux-like platform with the standard KNX group, the
factory yields TTL 2. -/
theorem multicast_sock_configuration_witness :
    (mcsockState "192.168.1.2" "224.0.23.12" 3671 "linux").ttl = Option.some 2 :=
  (multicast_sock_configuration "192.168.1.2" "224.0.23.12" 3671 "linux").2.2.2.2.1

/-- C7: on a connected client, send writes the encoded bytes addressed
explicitly to `remote_addr` when multicast, and with no explicit destination
otherwise. -/
theorem send_destination_by_multicast (c : UDPClient) (f : KNXIPFrame) (t : Transport)
    (ht : c.transport = Option.some t) :
    c.send f = if c.multicast then SendOutcome.sentTo f.to_knx c.remote_addr
               else SendOutcome.sent f.to_knx := by
  simp [UDPClient.send, ht]

/-- C7 witness: the connected multicast sample client addresses the group
explicitly. -/
theorem send_destination_by_multicast_witness :
    (UDPClient.connect sampleClient sampleTransport).send sampleFrame
      = if (UDPClient.connect sampleClient sampleTransport).multicast
        then SendOutcome.sentTo sampleFrame.to_knx
               (UDPClient.connect sampleClient sampleTransport).remote_addr
        else SendOutcome.sent sampleFrame.to_knx :=
  send_destination_by_multicast (UDPClient.connect sampleClient sampleTransport)
    sampleFrame sampleTransport rfl

/-- C8: removing a currently registered handle succeeds, after which no
dispatch of any frame invokes a registration with that identity, while
every other registration — including one holding the same handler function
under a different identity — is kept. Identities are pairwise distinct in
any reachable state because `register_callback` constructs a fresh record
each time. -/
theorem unregister_prevents_dispatch (c : UDPClient) (h : UDPClient.Callback)
    (hnd : (c.callbacks.map (fun cb => cb.id)).Nodup) (hm : h ∈ c.callbacks) :
    (c.unregister_callback h).2 = Option.none
      ∧ (∀ f : KNXIPFrame, ∀ cb ∈ ((c.unregister_callback h).1.handle_knxipframe f).1,
          cb.id ≠ h.id)
      ∧ (∀ cb ∈ c.callbacks, cb.id ≠ h.id → cb ∈ (c.unregister_callback h).1.callbacks) := by
  have hsome := removeFirst_isSome_of_mem c.callbacks h hm
  cases hr : removeFirst c.callbacks h.id with
  | none => rw [hr] at hsome; cases hsome
  | some r =>
    obtain ⟨h1, h2⟩ := removeFirst_spec c.callbacks h.id hnd r hr
    have hcal : (c.unregister_callback h).1.callbacks = r := by
      simp [UDPClient.unregister_callback, hr]
    refine ⟨?_, ?_, ?_⟩
    · simp [UDPClient.unregister_callback, hr]
    · intro f cb hcb
      rw [UDPClient.handle_knxipframe, hcal, dispatchLoop_fst] at hcb
      exact h1 cb (List.mem_of_mem_filter hcb)
    · intro cb hcb hne
      rw [hcal]
      exact h2 cb hcb hne

/-- C8 witness: removing the filtered registration from the sample client
succeeds. -/
theorem unregister_prevents_dispatch_witness :
    (clientWithCbs.unregister_callback cbSearch).2 = Option.none :=
  (unregister_prevents_dispatch clientWithCbs cbSearch (by decide) (by decide)).1

/-- C9: removing a handle whose identity is absent from the registration
list raises `ValueError` and returns the client state exactly unchanged. -/
theorem unregister_absent_leaves_state (c : UDPClient) (h : UDPClient.Callback)
    (hab : ∀ cb ∈ c.callbacks, cb.id ≠ h.id) :
    c.unregister_callback h = (c, Option.some PyError.valueError) := by
  simp [UDPClient.unregister_callback, removeFirst_of_absent c.callbacks h.id hab]

/-- C9 witness: removing an unknown handle from the sample client raises
`ValueError` and leaves it unchanged. -/
theorem unregister_absent_leaves_state_witness :
    clientWithCbs.unregister_callback { id := 99, callback := 7, service_types := [] }
      = (clientWithCbs, Option.some PyError.valueError) :=
  unregister_absent_leaves_state clientWithCbs
    { id := 99, callback := 7, service_types := [] } (by decide)

/-- C10: on a never-connected client (transport reference `None`), stop,
getsockname and getremote all fail by dereferencing the absent transport
(an attribute error), while only send signals the not-connected error. -/
theorem unguarded_ops_dereference_none (c : UDPClient) (f : KNXIPFrame)
    (hc : c.transport = Option.none) :
    c.stop = Except.error PyError.attributeError
      ∧ c.getsockname = Except.error PyError.attributeError
      ∧ c.getremote = Except.error PyError.attributeError
      ∧ c.send f = SendOutcome.notConnected := by
  refine ⟨?_, ?_, ?_, ?_⟩ <;>
    simp [UDPClient.stop, UDPClient.getsockname, UDPClient.getremote, UDPClient.send, hc]

/-- C10 witness: the never-connected sample client dereferences the absent
transport in stop. -/
theorem unguarded_ops_dereference_none_witness :
    sampleClient.stop = Except.error PyError.attributeError :=
  (unguarded_ops_dereference_none sampleClient sampleFrame rfl).1
